import Mathlib

/-!
Shallow embedding of `src/suruiha_gazebo_plugins/src/zephyr_controller.cpp`
(the Zephyr fixed-wing controller plugin) and of the PID regulator /
joint-binding contract it uses.

Conventions of the embedding:
* `double` values become `ℚ` (exact arithmetic; no floating-point rounding is
  modelled).  `common::Time` values become `ℚ` seconds.  `int` becomes `ℤ`.
* Host-simulation queries (world clock, world pose, its Euler decomposition,
  channel consumer/producer counts) are inputs of each tick, bundled in `Tick`.
* Side effects (publishing a pose message, applying a force to an actuator,
  logging an error) are returned as values so theorems can speak about them.
* Out-of-range vector indexing (`joints_[0..2]` in `CalculateJoints`) is
  modelled by `List.get?`: a tick whose joint-command step would index past
  the end of the joint list returns `none`.
-/

namespace Zephyr

/-- Hard clamp of `x` to the interval `[lo, hi]`. -/
def clamp (x lo hi : ℚ) : ℚ := max lo (min x hi)

/-- PID gains and clamps of one regulator, as set by
`JointControl::SetPIDParams(p, i, d, imax, imin, cmdmax, cmdmin)`. -/
structure PIDParams where
  p : ℚ
  i : ℚ
  d : ℚ
  imax : ℚ
  imin : ℚ
  cmdmax : ℚ
  cmdmin : ℚ
  deriving Repr, DecidableEq

/-- Modelled from the spec: the `JointControl` constructor is not part of the
given source; per §4.4/§8 a joint with no gain block keeps "default zero
gains (an inert pass-through)", so every parameter defaults to `0`. -/
def defaultPIDParams : PIDParams :=
  { p := 0, i := 0, d := 0, imax := 0, imin := 0, cmdmax := 0, cmdmin := 0 }

/-- Mutable state of one PID regulator: the accumulated integral and the
previous error, both persisted across compute steps. -/
structure PIDState where
  iErr : ℚ
  prevErr : ℚ
  deriving Repr, DecidableEq

/-- Modelled from the spec: the PID compute step (§4.1) is implemented by
`JointControl`, whose code is not part of the given source.  Per §4.1/§7:
if the elapsed time is zero (or negative, §7 "zero or negative"), the
derivative and integral accumulation is skipped and the output is the
clamped proportional term; otherwise the integral accumulates `error*dt`
and is hard-clamped to `[imin, imax]`, the derivative is
`(error - prevErr)/dt`, and the raw output `p*e + i*integral + d*deriv`
is clamped to `[cmdmin, cmdmax]`.  `previousError` is persisted each call.
Returns the new regulator state and the output. -/
def pidUpdate (par : PIDParams) (st : PIDState) (error dt : ℚ) : PIDState × ℚ :=
  if dt ≤ 0 then
    ({ iErr := st.iErr, prevErr := error },
     clamp (par.p * error) par.cmdmin par.cmdmax)
  else
    let iNew := clamp (st.iErr + error * dt) par.imin par.imax
    let deriv := (error - st.prevErr) / dt
    let raw := par.p * error + par.i * iNew + par.d * deriv
    ({ iErr := iNew, prevErr := error }, clamp raw par.cmdmin par.cmdmax)

/-- Trace of a sequence of PID compute steps: for each `(error, dt)` input,
the regulator state after that step and the output it returned. -/
def pidTrace (par : PIDParams) (st : PIDState) :
    List (ℚ × ℚ) → List (PIDState × ℚ)
  | [] => []
  | (e, dt) :: rest =>
    let r := pidUpdate par st e dt
    r :: pidTrace par r.1 rest

/-- One joint binding (`JointControl`): the configured name and type, whether
`model_->GetJoint(name)` resolved (the C++ stores the possibly-null joint
pointer), and the regulator attached to it. -/
structure JointControl where
  jointName : String
  jointType : String
  resolved : Bool
  pidParams : PIDParams
  pidState : PIDState
  deriving Repr, DecidableEq

/-- Modelled from the spec: `JointControl::SetCommand` is not part of the
given source.  Per §4.2 it runs the regulator's compute step on the target
(the measured value is fixed at zero, so the error is the target itself) and
forwards the output to the bound actuator; a binding whose actuator could
not be resolved is inert (`applyCommand` is a no-op).  Returns the updated
binding and `some appliedCommand`, or `none` when no physical command was
issued. -/
def SetCommand (jc : JointControl) (target dt : ℚ) : JointControl × Option ℚ :=
  if jc.resolved then
    let r := pidUpdate jc.pidParams jc.pidState target dt
    ({ jc with pidState := r.1 }, some r.2)
  else
    (jc, none)

/-- The optional PID gain block of one `<joint_control>` SDF element:
present exactly when the element `p` is present. -/
structure GainBlock where
  p : ℚ
  i : ℚ
  d : ℚ
  imax : ℚ
  imin : ℚ
  cmdmax : ℚ
  cmdmin : ℚ
  deriving Repr, DecidableEq

/-- One `<joint_control>` descriptor from configuration: name, type, whether
the named joint resolves in the host model, and the optional gain block. -/
structure JointDescriptor where
  name : String
  jtype : String
  resolvable : Bool
  gains : Option GainBlock
  deriving Repr, DecidableEq

/-- Embedding of `ZephyrController::SetPIDParams`: if the SDF element has a `p` element,
read the seven parameters and set them on the joint's regulator; otherwise
leave the regulator untouched. -/
def SetPIDParams (jc : JointControl) (sdfGains : Option GainBlock) :
    JointControl :=
  match sdfGains with
  | some g =>
    { jc with pidParams :=
        { p := g.p, i := g.i, d := g.d, imax := g.imax, imin := g.imin,
          cmdmax := g.cmdmax, cmdmin := g.cmdmin } }
  | none => jc

/-- Construction of one binding in `ZephyrController::Load`'s loop body:
build the `JointControl` from the descriptor (name, type, resolved joint
pointer, default regulator) and apply `SetPIDParams`. -/
def mkJointControl (d : JointDescriptor) : JointControl :=
  SetPIDParams
    { jointName := d.name, jointType := d.jtype, resolved := d.resolvable,
      pidParams := defaultPIDParams, pidState := { iErr := 0, prevErr := 0 } }
    d.gains

/-- The joint-loading loop of `ZephyrController::Load`: one binding is pushed
per descriptor, in order; an unresolvable name is logged with
`gzerr << "cannot get joint with name:" << name` and the binding is kept.
Returns the joint list and the log lines. -/
def loadJoints : List JointDescriptor → List JointControl × List String
  | [] => ([], [])
  | d :: rest =>
    let r := loadJoints rest
    (mkJointControl d :: r.1,
     (if d.resolvable then [] else ["cannot get joint with name:" ++ d.name])
       ++ r.2)

/-- Embedding of `ZephyrController::CalculateJoints`: reads pitch and roll from the world
pose's Euler decomposition (the C++ takes `Euler().X()` as pitch and
`Euler().Y()` as roll; the decomposition itself is a host query, so its two
components are inputs here), subtracts the targets, and commands the three
joints in fixed order: `joints_[0]` gets the throttle, `joints_[1]` gets
`pitch - roll`, `joints_[2]` gets `pitch + roll`.  Returns the updated joint
list, the three target values passed to `SetCommand` in order, and the three
physical effects; `none` when the list has no element at index 0, 1 or 2. -/
def CalculateJoints (joints : List JointControl) (eulerX eulerY : ℚ)
    (targetThrottle targetPitch targetRoll dt : ℚ) :
    Option (List JointControl × List ℚ × List (Option ℚ)) :=
  let pitch := eulerX
  let roll := eulerY
  let pitch := pitch - targetPitch
  let roll := roll - targetRoll
  match joints.get? 0, joints.get? 1, joints.get? 2 with
  | some j0, some j1, some j2 =>
    let r0 := SetCommand j0 targetThrottle dt
    let r1 := SetCommand j1 (pitch - roll) dt
    let r2 := SetCommand j2 (pitch + roll) dt
    some (r0.1 :: r1.1 :: r2.1 :: joints.drop 3,
          [targetThrottle, pitch - roll, pitch + roll],
          [r0.2, r1.2, r2.2])
  | _, _, _ => none

/-- The controller state shared between the tick handler and the command
handler: the three setpoint fields, the two timestamps, the configured pose
publication interval and the joint bindings. -/
structure ControllerState where
  targetThrottle : ℚ
  targetPitch : ℚ
  targetRoll : ℚ
  lastUpdateTime : ℚ
  lastPosePublishTime : ℚ
  poseUpdateRate : ℤ
  joints : List JointControl
  deriving Repr, DecidableEq

/-- Embedding of the constructor `ZephyrController::ZephyrController()`: `lastUpdateTime = 0` (the unset
sentinel), zero setpoints, `poseUpdateRate = 100`; `lastPosePublishTime` is
a default-constructed `common::Time`, i.e. `0`; the joint list is empty
until `Load` runs. -/
def ctorState : ControllerState :=
  { targetThrottle := 0, targetPitch := 0, targetRoll := 0,
    lastUpdateTime := 0, lastPosePublishTime := 0,
    poseUpdateRate := 100, joints := [] }

/-- The state-changing part of `ZephyrController::Load`: read
`poseUpdateRate` from the SDF and run the joint-loading loop.  Returns the
new state and the error log lines. -/
def Load (s : ControllerState) (rate : ℤ) (ds : List JointDescriptor) :
    ControllerState × List String :=
  let r := loadJoints ds
  ({ s with poseUpdateRate := rate, joints := r.1 }, r.2)

/-- A published pose message: position and orientation quaternion, copied
field by field from the sampled world pose. -/
structure PoseMsg where
  px : ℚ
  py : ℚ
  pz : ℚ
  ox : ℚ
  oy : ℚ
  oz : ℚ
  ow : ℚ
  deriving Repr, DecidableEq

/-- The host-simulation inputs of one tick: current simulation time, the
number of pose-channel subscribers and control-channel publishers, the
sampled world pose and the Euler X/Y components of its rotation. -/
structure Tick where
  currTime : ℚ
  numSubscribers : ℕ
  numPublishers : ℕ
  posePx : ℚ
  posePy : ℚ
  posePz : ℚ
  poseOx : ℚ
  poseOy : ℚ
  poseOz : ℚ
  poseOw : ℚ
  eulerX : ℚ
  eulerY : ℚ
  deriving Repr, DecidableEq

/-- Everything one tick produced: the new controller state, the pose message
published (if any), the `dt` passed to `CalculateJoints` (if it ran), the
three mixer targets and the three physical effects (if the joint-command
step ran). -/
structure TickResult where
  state : ControllerState
  poseMsg : Option PoseMsg
  dtUsed : Option ℚ
  jointCmds : Option (List ℚ)
  jointEffects : Option (List (Option ℚ))
  deriving Repr, DecidableEq

/-- First block of `ZephyrController::UpdateStates`: if the pose channel
has at least one subscriber and the elapsed milliseconds since
`lastPosePublishTime` exceed `poseUpdateRate`, publish the sampled world
pose and set `lastPosePublishTime` to the current time. -/
def poseStep (s : ControllerState) (t : Tick) :
    ControllerState × Option PoseMsg :=
  if 0 < t.numSubscribers then
    let dtp := (t.currTime - s.lastPosePublishTime) * 1000
    if (s.poseUpdateRate : ℚ) < dtp then
      ({ s with lastPosePublishTime := t.currTime },
       some { px := t.posePx, py := t.posePy, pz := t.posePz,
              ox := t.poseOx, oy := t.poseOy, oz := t.poseOz,
              ow := t.poseOw })
    else (s, none)
  else (s, none)

/-- Embedding of `ZephyrController::UpdateStates`, the per-tick handler (run
under the update mutex).  In source order: (1) the pose block, `poseStep`;
(2) if the control channel has publishers, compute `dt` since
`lastUpdateTime`, force it to `0` when `lastUpdateTime` is the `0` sentinel,
and run `CalculateJoints`; (3) unconditionally set `lastUpdateTime` to the
current time.  `none` models the out-of-range indexing inside
`CalculateJoints`. -/
def UpdateStates (s : ControllerState) (t : Tick) : Option TickResult :=
  let currTime := t.currTime
  let ps := poseStep s t
  let s1 := ps.1
  if 0 < t.numPublishers then
    let dt0 := currTime - s1.lastUpdateTime
    let dt := if s1.lastUpdateTime = 0 then 0 else dt0
    (CalculateJoints s1.joints t.eulerX t.eulerY
        s1.targetThrottle s1.targetPitch s1.targetRoll dt).map
      fun r =>
        { state := { s1 with joints := r.1, lastUpdateTime := currTime },
          poseMsg := ps.2, dtUsed := some dt,
          jointCmds := some r.2.1, jointEffects := some r.2.2 }
  else
    some { state := { s1 with lastUpdateTime := currTime },
           poseMsg := ps.2, dtUsed := none,
           jointCmds := none, jointEffects := none }

/-- An incoming `geometry_msgs::Twist` command message. -/
structure Twist where
  linX : ℚ
  linY : ℚ
  linZ : ℚ
  angX : ℚ
  angY : ℚ
  angZ : ℚ
  deriving Repr, DecidableEq

/-- Embedding of `ZephyrController::SetControl`, the command-channel handler (run under
the same update mutex as the tick handler): set the three setpoint fields
from `linear.x`, `angular.y`, `angular.x`. -/
def SetControl (s : ControllerState) (m : Twist) : ControllerState :=
  { s with targetThrottle := m.linX, targetPitch := m.angY,
           targetRoll := m.angX }


/-! ### Helper lemmas -/

theorem clamp_mem (x lo hi : ℚ) (h : lo ≤ hi) :
    lo ≤ clamp x lo hi ∧ clamp x lo hi ≤ hi :=
  ⟨le_max_left _ _, max_le h (min_le_right _ _)⟩

theorem pidUpdate_bounds (par : PIDParams) (st : PIDState) (e dt : ℚ)
    (hI : par.imin ≤ par.imax) (hC : par.cmdmin ≤ par.cmdmax)
    (h0 : par.imin ≤ st.iErr ∧ st.iErr ≤ par.imax) :
    (par.imin ≤ (pidUpdate par st e dt).1.iErr ∧
      (pidUpdate par st e dt).1.iErr ≤ par.imax) ∧
    (par.cmdmin ≤ (pidUpdate par st e dt).2 ∧
      (pidUpdate par st e dt).2 ≤ par.cmdmax) := by
  by_cases hdt : dt ≤ 0 <;> simp [pidUpdate, hdt]
  · exact ⟨h0, clamp_mem _ _ _ hC⟩
  · exact ⟨clamp_mem _ _ _ hI, clamp_mem _ _ _ hC⟩

theorem pidTrace_cons (par : PIDParams) (st : PIDState) (e dt : ℚ)
    (rest : List (ℚ × ℚ)) :
    pidTrace par st ((e, dt) :: rest)
      = pidUpdate par st e dt :: pidTrace par (pidUpdate par st e dt).1 rest :=
  rfl

/-! ### C3 -/

/-- C3: a PID compute step with dt == 0 skips the integral and derivative
accumulation (the accumulated integral is returned untouched) and outputs
exactly clamp(p*error, cmdmin, cmdmax). -/
theorem pid_dt_zero_proportional (par : PIDParams) (st : PIDState) (e : ℚ) :
    pidUpdate par st e 0
      = ({ iErr := st.iErr, prevErr := e },
         clamp (par.p * e) par.cmdmin par.cmdmax) := by
  simp [pidUpdate]

/-! ### C1 -/

/-- C1: whenever the joint-command step runs (three bindings exist), the
mixer passes the throttle through unmixed to joint 0 and commands
pitchError - rollError to joint 1 and pitchError + rollError to joint 2,
where pitchError = currentPitch - targetPitch and
rollError = currentRoll - targetRoll. -/
theorem mixing_law (joints : List JointControl) (h : 3 ≤ joints.length)
    (ex ey th tp tr dt : ℚ) :
    Option.map (fun r => r.2.1) (CalculateJoints joints ex ey th tp tr dt)
      = some [th, (ex - tp) - (ey - tr), (ex - tp) + (ey - tr)] := by
  rcases joints with _ | ⟨j0, _ | ⟨j1, _ | ⟨j2, rest⟩⟩⟩
  · simp only [List.length_nil] at h; omega
  · simp only [List.length_cons, List.length_nil] at h; omega
  · simp only [List.length_cons, List.length_nil] at h; omega
  · simp [CalculateJoints]

def sampleJoint (nm ty : String) : JointControl :=
  { jointName := nm, jointType := ty, resolved := true,
    pidParams := defaultPIDParams, pidState := { iErr := 0, prevErr := 0 } }

def sampleJoints : List JointControl :=
  [sampleJoint "propeller_joint" "force",
   sampleJoint "flap_left_joint" "position",
   sampleJoint "flap_right_joint" "position"]

/-- Witness for C1: the concrete case throttle=0.5, targetPitch=0.1,
targetRoll=0, currentPitch=0.3, currentRoll=0 yields the targets
propellerCmd=0.5, leftCmd=0.2, rightCmd=0.2. -/
theorem mixing_law_witness :
    Option.map (fun r => r.2.1)
      (CalculateJoints sampleJoints (3/10) 0 (1/2) (1/10) 0 0)
      = some [1/2, 1/5, 1/5] := by
  have h := mixing_law sampleJoints (by simp [sampleJoints]) (3/10) 0 (1/2)
    (1/10) 0 0
  rw [h]
  norm_num

/-! ### C9 -/

theorem calculateJoints_isSome (joints : List JointControl)
    (ex ey th tp tr dt : ℚ) :
    (CalculateJoints joints ex ey th tp tr dt).isSome ↔ 3 ≤ joints.length := by
  rcases joints with _ | ⟨j0, _ | ⟨j1, _ | ⟨j2, rest⟩⟩⟩ <;>
    simp [CalculateJoints]

theorem poseStep_fields (s : ControllerState) (t : Tick) :
    (poseStep s t).1.targetThrottle = s.targetThrottle ∧
    (poseStep s t).1.targetPitch = s.targetPitch ∧
    (poseStep s t).1.targetRoll = s.targetRoll ∧
    (poseStep s t).1.lastUpdateTime = s.lastUpdateTime ∧
    (poseStep s t).1.poseUpdateRate = s.poseUpdateRate ∧
    (poseStep s t).1.joints = s.joints := by
  simp only [poseStep]
  split_ifs <;> simp

/-- C9: a tick is free of out-of-range joint-list access precisely when,
if the command channel has an active producer, the configuration produced
at least three joint bindings. -/
theorem joint_index_precondition (s : ControllerState) (t : Tick) :
    (UpdateStates s t).isSome ↔
      (0 < t.numPublishers → 3 ≤ s.joints.length) := by
  have hj : (poseStep s t).1.joints = s.joints :=
    (poseStep_fields s t).2.2.2.2.2
  by_cases hp : 0 < t.numPublishers <;>
    simp [UpdateStates, hp, Option.isSome_map, calculateJoints_isSome, hj]

/-! ### C10 -/

/-- C10: the command handler writes exactly the three setpoint fields
(throttle from linear.x, pitch from angular.y, roll from angular.x) and
leaves all other controller state unchanged; after two messages the state
carries exactly the second message's values. -/
theorem setControl_effect (s : ControllerState) (m1 m2 : Twist) :
    (SetControl s m2).targetThrottle = m2.linX
    ∧ (SetControl s m2).targetPitch = m2.angY
    ∧ (SetControl s m2).targetRoll = m2.angX
    ∧ (SetControl s m2).lastUpdateTime = s.lastUpdateTime
    ∧ (SetControl s m2).lastPosePublishTime = s.lastPosePublishTime
    ∧ (SetControl s m2).poseUpdateRate = s.poseUpdateRate
    ∧ (SetControl s m2).joints = s.joints
    ∧ SetControl (SetControl s m1) m2 = SetControl s m2 :=
  ⟨rfl, rfl, rfl, rfl, rfl, rfl, rfl, rfl⟩


/-! ### C2 -/

/-- C2: along any sequence of PID compute steps, whatever the error and
elapsed-time inputs, the accumulated integral never leaves
[imin, imax] and every returned output lies in [cmdmin, cmdmax]
(for well-ordered clamp bounds and an in-range starting integral). -/
theorem pid_windup_output_bounded (par : PIDParams) (st : PIDState)
    (inputs : List (ℚ × ℚ))
    (hI : par.imin ≤ par.imax) (hC : par.cmdmin ≤ par.cmdmax)
    (h0 : par.imin ≤ st.iErr ∧ st.iErr ≤ par.imax) :
    ∀ r ∈ pidTrace par st inputs,
      (par.imin ≤ r.1.iErr ∧ r.1.iErr ≤ par.imax) ∧
      (par.cmdmin ≤ r.2 ∧ r.2 ≤ par.cmdmax) := by
  induction inputs generalizing st with
  | nil => intro r hr; simp [pidTrace] at hr
  | cons a rest ih =>
    obtain ⟨e, dt⟩ := a
    intro r hr
    rw [pidTrace_cons] at hr
    rcases List.mem_cons.mp hr with h | h
    · subst h
      exact pidUpdate_bounds par st e dt hI hC h0
    · exact ih (pidUpdate par st e dt).1
        (pidUpdate_bounds par st e dt hI hC h0).1 r h

def witnessPar : PIDParams :=
  { p := 1, i := 1, d := 0, imax := 2, imin := -2, cmdmax := 10, cmdmin := -10 }

/-- Witness for C2: a concrete run of one step with error 5, dt 1 from a
zeroed regulator; the clamped integral is 2 and the output 7, both in
range. -/
theorem pid_windup_output_bounded_witness :
    (witnessPar.imin ≤ ({ iErr := 2, prevErr := 5 } : PIDState).iErr ∧
      ({ iErr := 2, prevErr := 5 } : PIDState).iErr ≤ witnessPar.imax) ∧
    (witnessPar.cmdmin ≤ (7 : ℚ) ∧ (7 : ℚ) ≤ witnessPar.cmdmax) :=
  pid_windup_output_bounded witnessPar { iErr := 0, prevErr := 0 } [(5, 1)]
    (by norm_num [witnessPar]) (by norm_num [witnessPar])
    (by norm_num [witnessPar])
    ({ iErr := 2, prevErr := 5 }, 7)
    (by norm_num [pidTrace, pidUpdate, clamp, witnessPar])

theorem poseStep_spec (s : ControllerState) (t : Tick) :
    ((poseStep s t).2.isSome ↔
      0 < t.numSubscribers ∧
        (s.poseUpdateRate : ℚ) < (t.currTime - s.lastPosePublishTime) * 1000)
    ∧ ((poseStep s t).2.isSome →
        (poseStep s t).1.lastPosePublishTime = t.currTime)
    ∧ (¬ (poseStep s t).2.isSome →
        (poseStep s t).1.lastPosePublishTime = s.lastPosePublishTime) := by
  simp only [poseStep]
  split_ifs <;> simp_all

theorem tick_structure (s : ControllerState) (t : Tick) (r : TickResult)
    (h : UpdateStates s t = some r) :
    r.poseMsg = (poseStep s t).2
    ∧ r.state.lastPosePublishTime = (poseStep s t).1.lastPosePublishTime
    ∧ r.state.lastUpdateTime = t.currTime
    ∧ (0 < t.numPublishers →
        r.dtUsed = some (if (poseStep s t).1.lastUpdateTime = 0 then 0
          else t.currTime - (poseStep s t).1.lastUpdateTime))
    ∧ (¬ 0 < t.numPublishers → r.dtUsed = none) := by
  simp only [UpdateStates] at h
  split at h
  case isTrue hp =>
    rw [Option.map_eq_some'] at h
    obtain ⟨v, hv, hr⟩ := h
    subst hr
    simp [hp]
  case isFalse hp =>
    rw [Option.some_inj] at h
    subst h
    simp [hp]

/-! ### C6 -/

/-- C6: every tick that completes sets lastUpdateTime to the current tick's
simulation time, also when the joint-command step was skipped because the
command channel had no active producer. -/
theorem lastUpdateTime_always_updated (s : ControllerState) (t : Tick)
    (h : (UpdateStates s t).isSome) :
    (UpdateStates s t).map (fun r => r.state.lastUpdateTime)
      = some t.currTime := by
  obtain ⟨r, hr⟩ := Option.isSome_iff_exists.mp h
  rw [hr, Option.map_some']
  rw [(tick_structure s t r hr).2.2.1]

def quietTick : Tick :=
  { currTime := 7, numSubscribers := 0, numPublishers := 0,
    posePx := 0, posePy := 0, posePz := 0,
    poseOx := 0, poseOy := 0, poseOz := 0, poseOw := 1,
    eulerX := 0, eulerY := 0 }

/-- Witness for C6: with no producer attached the joint step is skipped and
lastUpdateTime is still set to the tick's time 7. -/
theorem lastUpdateTime_always_updated_witness :
    (UpdateStates ctorState quietTick).map (fun r => r.state.lastUpdateTime)
      = some quietTick.currTime :=
  lastUpdateTime_always_updated ctorState quietTick (by rfl)

/-! ### C5 -/

/-- C5: a completed tick emits a pose message iff the pose channel has at
least one consumer and the elapsed simulation time since
lastPosePublishTime, in milliseconds, exceeds poseUpdateRate; on emission
lastPosePublishTime becomes the tick's time, otherwise it is unchanged (at
most one message per tick by construction of the result). -/
theorem pose_emission (s : ControllerState) (t : Tick)
    (h : (UpdateStates s t).isSome) :
    (((UpdateStates s t).bind fun r => r.poseMsg).isSome
        ↔ 0 < t.numSubscribers ∧
          (s.poseUpdateRate : ℚ) < (t.currTime - s.lastPosePublishTime) * 1000)
    ∧ (((UpdateStates s t).bind fun r => r.poseMsg).isSome →
        (UpdateStates s t).map (fun r => r.state.lastPosePublishTime)
          = some t.currTime)
    ∧ (¬ ((UpdateStates s t).bind fun r => r.poseMsg).isSome →
        (UpdateStates s t).map (fun r => r.state.lastPosePublishTime)
          = some s.lastPosePublishTime) := by
  obtain ⟨r, hr⟩ := Option.isSome_iff_exists.mp h
  have ht := tick_structure s t r hr
  have hps := poseStep_spec s t
  rw [hr]
  simp only [Option.some_bind, Option.map_some']
  rw [ht.1]
  refine ⟨hps.1, fun he => ?_, fun hne => ?_⟩
  · rw [ht.2.1, hps.2.1 he]
  · rw [ht.2.1, hps.2.2 hne]

def poseTick : Tick :=
  { currTime := 1, numSubscribers := 1, numPublishers := 0,
    posePx := 2, posePy := 3, posePz := 4,
    poseOx := 0, poseOy := 0, poseOz := 0, poseOw := 1,
    eulerX := 0, eulerY := 0 }

/-- Witness for C5: the fresh controller (interval 100 ms, last emit 0) with
one consumer at time 1 s: 1000 elapsed milliseconds exceed 100, so a pose
message is emitted. -/
theorem pose_emission_witness :
    ((UpdateStates ctorState poseTick).bind fun r => r.poseMsg).isSome := by
  have h := pose_emission ctorState poseTick (by rfl)
  exact h.1.mpr (by norm_num [poseTick, ctorState])

/-! ### C4 -/

/-- C4: on a controller whose lastUpdateTime still holds the unset 0
sentinel, a completed tick with an active producer runs the joint
computation with dt forced to 0 even though the tick's simulation time is
arbitrary, and then sets lastUpdateTime to that current time. -/
theorem first_tick_dt_zero (s : ControllerState) (t : Tick)
    (hset : s.lastUpdateTime = 0) (hp : 0 < t.numPublishers)
    (h : (UpdateStates s t).isSome) :
    (UpdateStates s t).bind (fun r => r.dtUsed) = some 0
    ∧ (UpdateStates s t).map (fun r => r.state.lastUpdateTime)
        = some t.currTime := by
  obtain ⟨r, hr⟩ := Option.isSome_iff_exists.mp h
  have ht := tick_structure s t r hr
  have hlu : (poseStep s t).1.lastUpdateTime = 0 := by
    rw [(poseStep_fields s t).2.2.2.1, hset]
  rw [hr]
  simp only [Option.some_bind, Option.map_some']
  constructor
  · rw [ht.2.2.2.1 hp, hlu]
    simp
  · rw [ht.2.2.1]

def sampleDescriptors : List JointDescriptor :=
  [{ name := "propeller_joint", jtype := "force", resolvable := true,
     gains := some { p := 1, i := 0, d := 0, imax := 0, imin := 0,
                     cmdmax := 100, cmdmin := -100 } },
   { name := "flap_left_joint", jtype := "position", resolvable := true,
     gains := none },
   { name := "flap_right_joint", jtype := "position", resolvable := true,
     gains := none }]

def sampleState : ControllerState := (Load ctorState 100 sampleDescriptors).1

def cmdTick : Tick :=
  { currTime := 5, numSubscribers := 0, numPublishers := 1,
    posePx := 0, posePy := 0, posePz := 0,
    poseOx := 0, poseOy := 0, poseOz := 0, poseOw := 1,
    eulerX := 0, eulerY := 0 }

/-- Witness for C4: the freshly loaded three-joint controller ticked at
simulation time 5 s computes with dt = 0 and stores 5 as lastUpdateTime. -/
theorem first_tick_dt_zero_witness :
    (UpdateStates sampleState cmdTick).bind (fun r => r.dtUsed) = some 0
    ∧ (UpdateStates sampleState cmdTick).map
        (fun r => r.state.lastUpdateTime) = some cmdTick.currTime :=
  first_tick_dt_zero sampleState cmdTick (by rfl) (by decide) (by rfl)

theorem loadJoints_fst : ∀ ds : List JointDescriptor,
    (loadJoints ds).1 = ds.map mkJointControl
  | [] => rfl
  | d :: rest => by simp [loadJoints, loadJoints_fst rest]

theorem loadJoints_snd : ∀ ds : List JointDescriptor,
    (loadJoints ds).2 = (ds.filter fun x => !x.resolvable).map
      (fun x => "cannot get joint with name:" ++ x.name)
  | [] => rfl
  | d :: rest => by
    by_cases hd : d.resolvable <;>
      simp [loadJoints, List.filter_cons, hd, loadJoints_snd rest]

theorem mkJointControl_resolved (d : JointDescriptor) :
    (mkJointControl d).resolved = d.resolvable := by
  cases hg : d.gains <;> simp [mkJointControl, SetPIDParams, hg]

/-! ### C7 -/

/-- C7: an unresolvable actuator name is reported in the error log but the
binding is still pushed into its fixed slot: the joint list keeps one entry
per descriptor in descriptor order (so the mixer-output assignment of the
other bindings is not shifted), and commanding the unresolved binding
applies no physical command. -/
theorem unresolved_joint_nonfatal (ds : List JointDescriptor) (k : ℕ)
    (hk : k < ds.length) (hres : (ds.get ⟨k, hk⟩).resolvable = false) :
    ("cannot get joint with name:" ++ (ds.get ⟨k, hk⟩).name)
        ∈ (loadJoints ds).2
    ∧ (loadJoints ds).1.length = ds.length
    ∧ (∀ j (hj : j < ds.length),
        (loadJoints ds).1.get? j = some (mkJointControl (ds.get ⟨j, hj⟩)))
    ∧ ∀ v dt, SetCommand (mkJointControl (ds.get ⟨k, hk⟩)) v dt
        = (mkJointControl (ds.get ⟨k, hk⟩), none) := by
  refine ⟨?_, ?_, ?_, ?_⟩
  · rw [loadJoints_snd]
    exact List.mem_map.mpr ⟨ds.get ⟨k, hk⟩,
      List.mem_filter.mpr ⟨List.get_mem ds k hk, by simpa using hres⟩, rfl⟩
  · rw [loadJoints_fst]
    simp
  · intro j hj
    rw [loadJoints_fst]
    simp [List.get?_eq_getElem?, List.getElem?_eq_getElem hj]
  · intro v dt
    unfold SetCommand
    rw [mkJointControl_resolved, hres]
    simp

def goodPropDesc : JointDescriptor :=
  { name := "propeller_joint", jtype := "force", resolvable := true,
    gains := none }

def badLeftDesc : JointDescriptor :=
  { name := "flap_left_joint", jtype := "position", resolvable := false,
    gains := none }

def goodRightDesc : JointDescriptor :=
  { name := "flap_right_joint", jtype := "position", resolvable := true,
    gains := none }

def badDescriptors : List JointDescriptor :=
  [goodPropDesc, badLeftDesc, goodRightDesc]

/-- Witness for C7: with the middle descriptor unresolvable, the error is
logged, all three slots are still filled in order, and commanding the
middle binding has no physical effect. -/
theorem unresolved_joint_nonfatal_witness :
    ("cannot get joint with name:" ++ badLeftDesc.name)
        ∈ (loadJoints badDescriptors).2
    ∧ (loadJoints badDescriptors).1.length = badDescriptors.length
    ∧ SetCommand (mkJointControl badLeftDesc) 1 1
        = (mkJointControl badLeftDesc, none) := by
  have h := unresolved_joint_nonfatal badDescriptors 1 (by decide) (by decide)
  exact ⟨h.1, h.2.1, h.2.2.2 1 1⟩

/-! ### C8 -/

/-- C8: a descriptor without a gain block (no element p) still produces a
binding whose regulator keeps the default zero gains and clamps; the gains
are set exactly when the block is present; and the load-time error log
depends only on name resolvability, never on the presence of gains. -/
theorem missing_gain_block_defaults (d : JointDescriptor) :
    (d.gains = none → (mkJointControl d).pidParams = defaultPIDParams)
    ∧ (∀ g, d.gains = some g → (mkJointControl d).pidParams
        = { p := g.p, i := g.i, d := g.d, imax := g.imax, imin := g.imin,
            cmdmax := g.cmdmax, cmdmin := g.cmdmin })
    ∧ ∀ ds : List JointDescriptor, (loadJoints ds).2
        = (ds.filter fun x => !x.resolvable).map
            (fun x => "cannot get joint with name:" ++ x.name) := by
  refine ⟨?_, ?_, loadJoints_snd⟩
  · intro hg
    simp [mkJointControl, SetPIDParams, hg]
  · intro g hg
    simp [mkJointControl, SetPIDParams, hg]

/-- Witness for C8: the gain-less propeller descriptor keeps the default
zero-gain regulator. -/
theorem missing_gain_block_defaults_witness :
    (mkJointControl goodPropDesc).pidParams = defaultPIDParams :=
  (missing_gain_block_defaults goodPropDesc).1 rfl

end Zephyr
